import Mathlib

/-!
Verification of the `active_directory` repository's specification against a
shallow embedding of its Python sources.

The repository is a sequence of revisions of one wrapper module:

* `active_directory.py` (top level) — the module shipped by `setup.py`;
* `active_directory/` and `active_directory2/` — package-style revisions.

Python values are embedded as follows: Python `int` (unbounded) becomes
`Int`/`Nat`; byte strings become `List Nat` (each element `< 256`); unicode
strings become `String` or `List Char` where the proofs need character-level
slicing; a raised exception becomes `Except`/`Option`; `datetime.datetime`
values produced by the converters (always `>= 1601-01-01`) are embedded as
the number of microseconds since 1601-01-01 00:00:00, which is exactly the
information a Python `datetime` carries at its microsecond resolution;
`datetime.timedelta` is embedded as its normalised
days/seconds/microseconds triple.  Python 2 integer division `/` is floor
division, `Nat`'s `/`.
-/

namespace ADSpec

/-! ## `active_directory2/support.py` — LDAP filter string helpers -/

/-- `support.and_` restricted to its positional (already-formatted clause)
arguments: wrap each clause in parentheses; with fewer than two clauses
just concatenate, otherwise prefix with `&`. -/
def and_ (args : List String) : String :=
  let params := args.map (fun s => "(" ++ s ++ ")")
  if params.length < 2 then String.join params
  else "&" ++ String.join params

/-- `support.or_` restricted to its positional arguments. -/
def or_ (args : List String) : String :=
  let params := args.map (fun s => "(" ++ s ++ ")")
  if params.length < 2 then String.join params
  else "|" ++ String.join params

/-- `support.band`: the bitwise-and matching rule. -/
def band (name value : String) : String :=
  name ++ ":1.2.840.113556.1.4.803:=" ++ value

/-- `support.bor`: the bitwise-or matching rule. -/
def bor (name value : String) : String :=
  name ++ ":1.2.840.113556.1.4.804:=" ++ value

/-- `support.within`: the transitive-membership matching rule. -/
def within (name dn : String) : String :=
  name ++ ":1.2.840.113556.1.4.1941:=" ++ dn

/-! ## `active_directory2/core.py` — `query`'s filter bracketing

`core.query` runs `re.match (r"\([^)]+\)", filter)` and surrounds `filter`
with parentheses when the match fails.  The regular expression, anchored at
the start of the string, matches exactly when the first character is `(`
and a `)` appears later with at least one non-`)` character in between,
i.e. when the first `)` of the remainder does not come immediately. -/

/-- Embedding of the anchored match of `\([^)]+\)` against `s`. -/
def matchesBracketedTerm (s : String) : Bool :=
  match s.data with
  | [] => false
  | c :: rest =>
    c == '(' &&
      (match rest.findIdx? (fun d => d == ')') with
       | some k => decide (1 ≤ k)
       | none => false)

/-- The filter actually handed to `ExecuteSearch` by `core.query`
(`if filter and not re.match (r"\([^)]+\)", filter): filter = u"(%s)" % filter`). -/
def queryFilter (filter : String) : String :=
  if filter ≠ "" && !(matchesBracketedTerm filter) then "(" ++ filter ++ ")"
  else filter

/-! ## `active_directory.py` (the module shipped by `setup.py`) — 64-bit
interval timestamps

`BASE_TIME = datetime.datetime(1601, 1, 1)`; a decoded `datetime` is
embedded as its microsecond offset from `BASE_TIME`. -/

/-- `signed_to_unsigned`: `struct.unpack("L", struct.pack("l", signed))[0]`.
`struct.pack ("l", x)` raises `struct.error` unless `-2^31 ≤ x < 2^31`
(modelled as `none`); in range, the 32-bit two's-complement pattern of
`signed` is read back as unsigned. -/
def signed_to_unsigned (signed : Int) : Option Nat :=
  if -(2 ^ 31) ≤ signed ∧ signed < 2 ^ 31 then some ((signed % (2 ^ 32 : Int)).toNat)
  else none

/-- `unsigned_to_signed`: `struct.unpack("l", struct.pack("L", unsigned))[0]`,
defined on `unsigned < 2^32` (`struct.pack ("L", ·)` raises beyond): the
32-bit pattern of `unsigned` read back as signed two's complement. -/
def unsigned_to_signed (unsigned : Nat) : Int :=
  if unsigned < 2 ^ 31 then (unsigned : Int) else (unsigned : Int) - 2 ^ 32

/-- A normalised non-negative `datetime.timedelta`
(`0 ≤ seconds < 86400`, `0 ≤ microseconds < 10^6`). -/
structure Timedelta where
  days : Nat
  seconds : Nat
  microseconds : Nat

/-- `timestamp - BASE_TIME` for a `datetime` embedded as its microsecond
offset `timestamp` from `BASE_TIME`: Python normalises the difference into
a days/seconds/microseconds triple. -/
def datetimeSubBase (timestamp : Nat) : Timedelta :=
  ⟨timestamp / 86400000000, timestamp % 86400000000 / 1000000, timestamp % 1000000⟩

/-- `delta_as_microseconds` from the shipped module:
`delta.days * 24 * 3600 * 10**6 + delta.seconds * 10**6 + delta.microseconds`. -/
def delta_as_microseconds (delta : Timedelta) : Nat :=
  delta.days * 24 * 3600 * 10 ^ 6 + delta.seconds * 10 ^ 6 + delta.microseconds

/-- The microsecond offset of `datetime.max` (9999-12-31 23:59:59.999999,
Python's `MAXYEAR` being 9999) from `BASE_TIME`: the proleptic-Gregorian
ordinals are 3652059 and 4·146097 + 1 = 584389, so 3067670 whole days
plus the last day's 86399999999 microseconds. -/
def MAX_DATETIME_MICROSECONDS : Nat := 3067670 * 86400000000 + 86399999999

/-- `ad_time_to_datetime` from the shipped module: convert `HighPart` and
`LowPart` with `signed_to_unsigned` (a `struct.error` makes the whole
conversion return `None`), count `ns100 = (hi << 32) + lo` ticks of 100ns,
and return `BASE_TIME + timedelta(microseconds=ns100 / 10)` (Python 2
floor division) — the microsecond offset `ns100 / 10`.  That addition is
not guarded: when the offset passes `datetime.max` it raises an uncaught
`OverflowError` instead of returning a value. -/
def ad_time_to_datetime (highPart lowPart : Int) : Except String (Option Nat) :=
  match signed_to_unsigned highPart, signed_to_unsigned lowPart with
  | some hi, some lo =>
    let us := ((hi <<< 32) + lo) / 10
    if us ≤ MAX_DATETIME_MICROSECONDS then .ok (some us) else .error "OverflowError"
  | _, _ => .ok Option.none

/-- `ad_time_from_datetime` from the shipped module:
`ns100 = 10 * delta_as_microseconds(timestamp - BASE_TIME)`,
`hi = (ns100 & 0xffffffff00000000) >> 32`, `lo = ns100 & 0xffffffff`. -/
def ad_time_from_datetime (timestamp : Nat) : Nat × Nat :=
  let ns100 := 10 * delta_as_microseconds (datetimeSubBase timestamp)
  ((ns100 &&& 0xffffffff00000000) >>> 32, ns100 &&& 0xffffffff)

/-- The instant the specification says decoding yields, measured in 100ns
ticks since 1601-01-01: `(hi << 32) + lo` ticks (parts unsigned). -/
def spec_decoded_ticks (hi lo : Nat) : Nat := (hi <<< 32) + lo

/-! ## `active_directory.py` — bit-flag enumerations

`Enum.__init__` stores `unsigned_to_signed` of every value;
`convert_to_flags` applies `unsigned_to_signed` to its input and keeps the
names whose stored bitmask has a truthy Python `&` with it. -/

/-- Python's bitwise `&` restricted to operands in `[-2^31, 2^31)` (all the
operands `convert_to_flags` produces): bitwise AND of the two's-complement
patterns.  On that domain every bit of an operand above position 31 equals
its bit 31, so the result is the signed reading of the AND of the two
unsigned 32-bit patterns. -/
def pyAnd32 (a b : Int) : Int :=
  unsigned_to_signed ((a % (2 ^ 32 : Int)).toNat &&& (b % (2 ^ 32 : Int)).toNat)

/-- `Enum.item_numbers ()`: the (signed bitmask, name) pairs of an
enumeration whose declaration listed `(value, name)` with `value` unsigned. -/
def enum_item_numbers (table : List (Nat × String)) : List (Int × String) :=
  table.map (fun p => (unsigned_to_signed p.1, p.2))

/-- `convert_to_flags` from the shipped module:
`set(name for (bitmask, name) in enum.item_numbers() if unsigned_to_signed(item) & bitmask)`. -/
def convert_to_flags (table : List (Nat × String)) (item : Nat) : Finset String :=
  let itemS := unsigned_to_signed item
  (((enum_item_numbers table).filter (fun p => pyAnd32 itemS p.1 != 0)).map Prod.snd).toFinset

/-- The `USER_ACCOUNT_CONTROL` enumeration of the shipped module, as
(value, name) pairs in declaration order. -/
def USER_ACCOUNT_CONTROL : List (Nat × String) :=
  [(0x00000001, "ADS_UF_SCRIPT"),
   (0x00000002, "ADS_UF_ACCOUNTDISABLE"),
   (0x00000008, "ADS_UF_HOMEDIR_REQUIRED"),
   (0x00000010, "ADS_UF_LOCKOUT"),
   (0x00000020, "ADS_UF_PASSWD_NOTREQD"),
   (0x00000040, "ADS_UF_PASSWD_CANT_CHANGE"),
   (0x00000080, "ADS_UF_ENCRYPTED_TEXT_PASSWORD_ALLOWED"),
   (0x00000100, "ADS_UF_TEMP_DUPLICATE_ACCOUNT"),
   (0x00000200, "ADS_UF_NORMAL_ACCOUNT"),
   (0x00000800, "ADS_UF_INTERDOMAIN_TRUST_ACCOUNT"),
   (0x00001000, "ADS_UF_WORKSTATION_TRUST_ACCOUNT"),
   (0x00002000, "ADS_UF_SERVER_TRUST_ACCOUNT"),
   (0x00010000, "ADS_UF_DONT_EXPIRE_PASSWD"),
   (0x00020000, "ADS_UF_MNS_LOGON_ACCOUNT"),
   (0x00040000, "ADS_UF_SMARTCARD_REQUIRED"),
   (0x00080000, "ADS_UF_TRUSTED_FOR_DELEGATION"),
   (0x00100000, "ADS_UF_NOT_DELEGATED"),
   (0x00200000, "ADS_UF_USE_DES_KEY_ONLY"),
   (0x00400000, "ADS_UF_DONT_REQUIRE_PREAUTH"),
   (0x00800000, "ADS_UF_PASSWORD_EXPIRED"),
   (0x01000000, "ADS_UF_TRUSTED_TO_AUTHENTICATE_FOR_DELEGATION")]

/-- The names an enumeration registers for exactly the bit `mask`. -/
def namesForBit (table : List (Nat × String)) (mask : Nat) : Finset String :=
  ((table.filter (fun p => p.1 == mask)).map Prod.snd).toFinset

/-! ## GUID and hex decoding

`convert_to_hex`/`convert_to_guid` from the shipped module, and the
variants of the `active_directory` package revision
(`converters.py`/`types.py`), which wrap the hex digits in angle
brackets.  Byte strings are `List Nat`, the decoded text a `List Char`
so that Python's string slicing is list `take`/`drop`. -/

/-- One lowercase hexadecimal digit. -/
def hexDigitChar (n : Nat) : Char := "0123456789abcdef".data.getD n '0'

/-- `"%02x" % b` for a byte `b < 256`: exactly two lowercase hex digits. -/
def hex2 (b : Nat) : List Char := [hexDigitChar (b / 16), hexDigitChar (b % 16)]

/-- `"%x" % b` for a byte `b < 256`: unpadded lowercase hex digits. -/
def hex1 (b : Nat) : List Char :=
  if b < 16 then [hexDigitChar b] else [hexDigitChar (b / 16), hexDigitChar (b % 16)]

/-- `convert_to_hex` from the shipped module:
`"".join("%02x" % ord(i) for i in item)` (with the `None` guard). -/
def convert_to_hex (item : Option (List Nat)) : Option (List Char) :=
  match item with
  | Option.none => Option.none
  | some bs => some ((bs.map hex2).flatten)

/-- `convert_to_guid` from the shipped module: hyphenate the hex digits as
`guid[:8]`, `guid[8:12]`, `guid[12:16]`, `guid[16:20]`, `guid[20:]` inside
braces. -/
def convert_to_guid (item : Option (List Nat)) : Option (List Char) :=
  match item with
  | Option.none => Option.none
  | some bs =>
    let guid := (bs.map hex2).flatten
    some (Char.ofNat 0x7b ::
      (guid.take 8 ++ '-' ::
        ((guid.drop 8).take 4 ++ '-' ::
          ((guid.drop 12).take 4 ++ '-' ::
            ((guid.drop 16).take 4 ++ '-' ::
              (guid.drop 20 ++ [Char.ofNat 0x7d]))))))

/-- `convert_to_hex` of the `active_directory` package revision
(`converters.py`, same in `active_directory2/types.py`):
`"<%s>" % "".join("%02x" % ord(i) for i in item)`. -/
def pkg_convert_to_hex (item : Option (List Nat)) : Option (List Char) :=
  match item with
  | Option.none => Option.none
  | some bs => some ('<' :: ((bs.map hex2).flatten ++ ['>']))

/-- `convert_to_guid` of the `active_directory` package revision: the same
slicing applied to the angle-bracketed hex string. -/
def pkg_convert_to_guid (item : Option (List Nat)) : Option (List Char) :=
  match item with
  | Option.none => Option.none
  | some bs =>
    let guid := '<' :: ((bs.map hex2).flatten ++ ['>'])
    some (Char.ofNat 0x7b ::
      (guid.take 8 ++ '-' ::
        ((guid.drop 8).take 4 ++ '-' ::
          ((guid.drop 12).take 4 ++ '-' ::
            ((guid.drop 16).take 4 ++ '-' ::
              (guid.drop 20 ++ [Char.ofNat 0x7d]))))))

/-- A lowercase hexadecimal digit character (for the canonical-form
statement). -/
def isHexChar (c : Char) : Bool := "0123456789abcdef".data.contains c

/-- The canonical GUID string form the specification describes: a braced,
hyphen-separated sequence of hex groups (the group lengths are constrained
in the theorems). -/
def canonicalGuid (g1 g2 g3 g4 g5 : List Char) : List Char :=
  Char.ofNat 0x7b ::
    (g1 ++ '-' :: (g2 ++ '-' :: (g3 ++ '-' :: (g4 ++ '-' :: (g5 ++ [Char.ofNat 0x7d])))))

/-! ## `active_directory/constants.py` — enumeration tables

`active_directory2` imports a `constants` module that is not present in
that package's sources; these tables are the ones of the sibling
`active_directory` package revision, which carries the same declarations. -/

def ADS_SYSTEMFLAG : List (Nat × String) :=
  [(0x80000000, "DISALLOW_DELETE"),
   (0x40000000, "CONFIG_ALLOW_RENAME"),
   (0x20000000, "CONFIG_ALLOW_MOVE"),
   (0x10000000, "CONFIG_ALLOW_LIMITED_MOVE"),
   (0x08000000, "DOMAIN_DISALLOW_RENAME"),
   (0x04000000, "DOMAIN_DISALLOW_MOVE"),
   (0x00000001, "CR_NTDS_NC"),
   (0x00000002, "CR_NTDS_DOMAIN"),
   (0x00000001, "ATTR_NOT_REPLICATED"),
   (0x00000004, "ATTR_IS_CONSTRUCTED")]

def GROUP_TYPES : List (Nat × String) :=
  [(0x00000002, "GLOBAL"),
   (0x00000004, "DOMAIN_LOCAL"),
   (0x00000004, "LOCAL"),
   (0x00000008, "UNIVERSAL"),
   (0x80000000, "SECURITY_ENABLED")]

def SAM_ACCOUNT_TYPES : List (Nat × String) :=
  [(0x0, "DOMAIN_OBJECT"),
   (0x10000000, "GROUP_OBJECT"),
   (0x10000001, "NON_SECURITY_GROUP_OBJECT"),
   (0x20000000, "ALIAS_OBJECT"),
   (0x20000001, "NON_SECURITY_ALIAS_OBJECT"),
   (0x30000000, "USER_OBJECT"),
   (0x30000000, "NORMAL_USER_ACCOUNT"),
   (0x30000001, "MACHINE_ACCOUNT"),
   (0x30000002, "TRUST_ACCOUNT"),
   (0x40000000, "APP_BASIC_GROUP"),
   (0x40000001, "APP_QUERY_GROUP"),
   (0x7fffffff, "ACCOUNT_TYPE_MAX")]

def UAC_CONSTANTS : List (Nat × String) :=
  [(0x00000001, "SCRIPT"),
   (0x00000002, "ACCOUNTDISABLE"),
   (0x00000008, "HOMEDIR_REQUIRED"),
   (0x00000010, "LOCKOUT"),
   (0x00000020, "PASSWD_NOTREQD"),
   (0x00000040, "PASSWD_CANT_CHANGE"),
   (0x00000080, "ENCRYPTED_TEXT_PASSWORD_ALLOWED"),
   (0x00000100, "TEMP_DUPLICATE_ACCOUNT"),
   (0x00000200, "NORMAL_ACCOUNT"),
   (0x00000800, "INTERDOMAIN_TRUST_ACCOUNT"),
   (0x00001000, "WORKSTATION_TRUST_ACCOUNT"),
   (0x00002000, "SERVER_TRUST_ACCOUNT"),
   (0x00010000, "DONT_EXPIRE_PASSWD"),
   (0x00020000, "MNS_LOGON_ACCOUNT"),
   (0x00040000, "SMARTCARD_REQUIRED"),
   (0x00080000, "TRUSTED_FOR_DELEGATION"),
   (0x00100000, "NOT_DELEGATED"),
   (0x00200000, "USE_DES_KEY_ONLY"),
   (0x00400000, "DONT_REQUIRE_PREAUTH"),
   (0x00800000, "PASSWORD_EXPIRED"),
   (0x01000000, "TRUSTED_TO_AUTHENTICATE_FOR_DELEGATION")]

/-! ## `active_directory2/types.py` and `adobject.py` — the codec registry

Wire and application values are drawn from one domain.  Values produced
by calls into the platform (`win32security.SID`,
`utils.file_time_to_system_time`, `datetime.fromtimestamp`, the
`ADObject` factory) are opaque; a constructor records the call and its
argument. -/

inductive PyVal where
  | none
  | pybool (b : Bool)
  | int (n : Int)
  | str (s : String)
  | bytes (bs : List Nat)
  | ularge (hi lo : Int)
  | pytime (t : Int)
  | systime (hi lo : Int)
  | sid (bs : List Nat)
  | adObject (dn : String)
  | fromtimestamp (t : Int)
  | names (s : Finset String)
  | pylist (vs : List PyVal)

/-- `utils.i32`: reduce any Python integer to its signed 32-bit value
(`(x & 0x80000000 and -2*0x40000000 or 0) + int(x & 0x7fffffff)`, i.e.
the low 31 bits plus `-2^31` when bit 31 of the two's-complement pattern
is set). -/
def i32 (x : Int) : Int := (x + 2 ^ 31) % (2 ^ 32 : Int) - 2 ^ 31

/-- `convert_to_flags` of `active_directory2/types.py`: the bitmasks are
stored through `utils.i32` by `constants.Enum.__init__` and the input
passes through `utils.i32` as well. -/
def convert_to_flags2 (table : List (Nat × String)) (item : Int) : Finset String :=
  (((table.map (fun p => (i32 p.1, p.2))).filter
      (fun p => pyAnd32 (i32 item) p.1 != 0)).map Prod.snd).toFinset

/-- `constants.Enum.__getitem__` on an integer key: look the signed value
up in `_number_map` (a later duplicate value overwrites an earlier one,
hence the reversed search). -/
def enumGetItem (table : List (Nat × String)) (n : Int) : Option String :=
  ((table.reverse.find? (fun p => i32 p.1 == i32 n)).map Prod.snd)

/-- The converter functions of `active_directory2/types.py` (plus
`dn_to_object (ADObject)`, which `adobject.py` registers for the DN
attribute type). -/
inductive Converter where
  | convertToDatetime
  | convertPytimeToDatetime
  | convertToSid
  | convertToGuid
  | convertToHex
  | convertToHexes
  | convertToEnum (table : List (Nat × String))
  | convertToFlags (table : List (Nat × String))
  | convertToBoolean
  | convertToBreadcrumbs
  | noConversion
  | ulargeToDatetime
  | ulargeToLong
  | octetToSid
  | octetToHex
  | dnToObject
  | datetimeToUlarge
  | longToUlarge
  | sidToOctet
  | hexToOctet
  | objectToDn
deriving DecidableEq

/-- The strings of a Python list of strings (`None` when some element is
not a string). -/
def allStrings (vs : List PyVal) : Option (List String) :=
  vs.mapM (fun v => match v with | PyVal.str s => some s | _ => Option.none)

/-- `types.convert_to_hex` as a function of one value (shared by
`convert_to_hexes`). -/
def convert_to_hex_val (v : PyVal) : Except String PyVal :=
  match v with
  | PyVal.none => .ok PyVal.none
  | PyVal.bytes bs =>
    .ok (PyVal.str (String.mk ('<' :: ((bs.map hex2).flatten ++ ['>']))))
  | _ => .error "TypeError"

/-- Apply a converter of `active_directory2/types.py` to a raw value.
Every `if item is None: return None` guard of the source is the
`PyVal.none => .ok PyVal.none` arm; a converter without that guard fails
on `PyVal.none` exactly as the Python code raises.  A value whose shape
the Python body cannot process raises (`.error`). -/
def applyConverter (f : Converter) (v : PyVal) : Except String PyVal :=
  match f with
  | .convertToDatetime =>
    match v with
    | PyVal.none => .ok PyVal.none
    | PyVal.ularge hi lo => .ok (PyVal.systime hi lo)
    | _ => .error "AttributeError"
  | .convertPytimeToDatetime =>
    match v with
    | PyVal.none => .ok PyVal.none
    | PyVal.pytime t => .ok (PyVal.fromtimestamp t)
    | _ => .error "TypeError"
  | .convertToSid =>
    match v with
    | PyVal.none => .ok PyVal.none
    | PyVal.bytes bs => .ok (PyVal.sid bs)
    | _ => .error "TypeError"
  | .convertToGuid =>
    match v with
    | PyVal.none => .ok PyVal.none
    | PyVal.bytes bs =>
      match pkg_convert_to_guid (some bs) with
      | some cs => .ok (PyVal.str (String.mk cs))
      | Option.none => .error "TypeError"
    | _ => .error "TypeError"
  | .convertToHex =>
    match v with
    | PyVal.none => .ok PyVal.none
    | _ => convert_to_hex_val v
  | .convertToHexes =>
    match v with
    | PyVal.none => .ok PyVal.none
    | PyVal.pylist vs => (vs.mapM convert_to_hex_val).map PyVal.pylist
    | _ => .error "TypeError"
  | .convertToEnum table =>
    match v with
    | PyVal.none => .ok PyVal.none
    | PyVal.int n =>
      match enumGetItem table n with
      | some name => .ok (PyVal.str name)
      | Option.none => .error "KeyError"
    | _ => .error "KeyError"
  | .convertToFlags table =>
    match v with
    | PyVal.none => .ok PyVal.none
    | PyVal.int n => .ok (PyVal.names (convert_to_flags2 table n))
    | _ => .error "TypeError"
  | .convertToBoolean =>
    match v with
    | PyVal.none => .ok PyVal.none
    | PyVal.str s => .ok (PyVal.pybool (s == "TRUE"))
    | _ => .ok (PyVal.pybool false)
  | .convertToBreadcrumbs =>
    match v with
    | PyVal.pylist vs =>
      match allStrings vs with
      | some ss => .ok (PyVal.str (String.intercalate " > " ss))
      | Option.none => .error "TypeError"
    | PyVal.str s => .ok (PyVal.str (String.intercalate " > " (s.data.map Char.toString)))
    | _ => .error "TypeError"
  | .noConversion => .ok v
  | .ulargeToDatetime =>
    match v with
    | PyVal.ularge hi lo => .ok (PyVal.systime hi lo)
    | _ => .error "AttributeError"
  | .ulargeToLong =>
    match v with
    | PyVal.ularge hi lo => .ok (PyVal.int (hi * 2 ^ 32 + lo))
    | _ => .error "AttributeError"
  | .octetToSid =>
    match v with
    | PyVal.none => .ok PyVal.none
    | PyVal.bytes bs => .ok (PyVal.sid bs)
    | _ => .error "TypeError"
  | .octetToHex =>
    match v with
    | PyVal.none => .ok PyVal.none
    | PyVal.bytes bs => .ok (PyVal.str (String.mk ((bs.map hex1).flatten)))
    | _ => .error "TypeError"
  | .dnToObject =>
    match v with
    | PyVal.none => .ok PyVal.none
    | PyVal.str dn => .ok (PyVal.adObject dn)
    | _ => .error "TypeError"
  | .datetimeToUlarge => .error "NotImplementedError"
  | .longToUlarge => .error "NotImplementedError"
  | .sidToOctet => .error "NotImplementedError"
  | .hexToOctet => .error "NotImplementedError"
  | .objectToDn =>
    match v with
    | PyVal.adObject dn => .ok (PyVal.str dn)
    | _ => .error "AttributeError"

/-- `_converters` after `active_directory2/types.py` has run: the three
direct `register_converters` calls followed by the `CONVERTERS` loop
(which overwrites the decode side registered first for
`sAMAccountType` — `convert_from_enum` and `convert_to_enum` have the
same body).  Only `distinguishedName` registers an encode side. -/
def name_converters : List (String × (Option Converter × Option Converter)) :=
  [("sAMAccountType", (some (.convertToEnum SAM_ACCOUNT_TYPES), Option.none)),
   ("distinguishedName", (some .noConversion, some .noConversion)),
   ("accountExpires", (some .convertToDatetime, Option.none)),
   ("badPasswordTime", (some .convertToDatetime, Option.none)),
   ("creationTime", (some .convertToDatetime, Option.none)),
   ("dSASignature", (some .convertToHex, Option.none)),
   ("forceLogoff", (some .convertToDatetime, Option.none)),
   ("groupType", (some (.convertToFlags GROUP_TYPES), Option.none)),
   ("isGlobalCatalogReady", (some .convertToBoolean, Option.none)),
   ("isSynchronized", (some .convertToBoolean, Option.none)),
   ("lastLogoff", (some .convertToDatetime, Option.none)),
   ("lastLogon", (some .convertToDatetime, Option.none)),
   ("lastLogonTimestamp", (some .convertToDatetime, Option.none)),
   ("lockoutDuration", (some .convertToDatetime, Option.none)),
   ("lockoutObservationWindow", (some .convertToDatetime, Option.none)),
   ("lockoutTime", (some .convertToDatetime, Option.none)),
   ("maxPwdAge", (some .convertToDatetime, Option.none)),
   ("minPwdAge", (some .convertToDatetime, Option.none)),
   ("modifiedCount", (some .convertToDatetime, Option.none)),
   ("modifiedCountAtLastProm", (some .convertToDatetime, Option.none)),
   ("msExchMailboxGuid", (some .convertToGuid, Option.none)),
   ("schemaIDGUID", (some .convertToGuid, Option.none)),
   ("mSMQDigests", (some .convertToHex, Option.none)),
   ("mSMQSignCertificates", (some .convertToHex, Option.none)),
   ("objectClass", (some .convertToBreadcrumbs, Option.none)),
   ("objectGUID", (some .convertToGuid, Option.none)),
   ("objectSid", (some .convertToSid, Option.none)),
   ("pwdLastSet", (some .convertToDatetime, Option.none)),
   ("replicationSignature", (some .convertToHex, Option.none)),
   ("replUpToDateVector", (some .convertToHex, Option.none)),
   ("repsFrom", (some .convertToHexes, Option.none)),
   ("repsTo", (some .convertToHex, Option.none)),
   ("systemFlags", (some (.convertToFlags ADS_SYSTEMFLAG), Option.none)),
   ("userAccountControl", (some (.convertToFlags UAC_CONSTANTS), Option.none)),
   ("whenCreated", (some .convertPytimeToDatetime, Option.none)),
   ("whenChanged", (some .convertPytimeToDatetime, Option.none))]

/-- `_type_converters` after `types.py` has run and `adobject.py` has
added the DN attribute type (`register_type_converters ("2.5.5.1",
dn_to_object (ADObject), object_to_dn)`). -/
def type_converters : List (String × (Option Converter × Option Converter)) :=
  [("2.5.5.11", (some .ulargeToDatetime, some .datetimeToUlarge)),
   ("2.5.5.16", (some .ulargeToLong, some .longToUlarge)),
   ("2.5.5.17", (some .octetToSid, some .sidToOctet)),
   ("2.5.5.10", (some .octetToHex, some .hexToOctet)),
   ("2.5.5.1", (some .dnToObject, some .objectToDn))]

/-- `types.get_converters (name)`. -/
def get_converters (name : String) : Option Converter × Option Converter :=
  ((name_converters.find? (fun p => p.1 == name)).map Prod.snd).getD
    (Option.none, Option.none)

/-- `types.get_type_converters (attribute_syntax)` keyed by the
attribute-type OID. -/
def get_type_converters (synId : String) : Option Converter × Option Converter :=
  ((type_converters.find? (fun p => p.1 == synId)).map Prod.snd).getD
    (Option.none, Option.none)

/-- The decode path of `ADObject.__getattr__`: the name-registered decode
function if there is one (`if not convert_from`), otherwise the attribute
type's, and the raw value unchanged when neither exists. -/
def adobject_decode (name synId : String) (value : PyVal) : Except String PyVal :=
  let convert_from :=
    match (get_converters name).1 with
    | some f => some f
    | Option.none => (get_type_converters synId).1
  match convert_from with
  | some f => applyConverter f value
  | Option.none => .ok value

/-! ## `active_directory/exc.py` — error-code translation

The exception classes of `exc.py`; `NotImplementedError` and
`AttributeError` are Python built-ins, the rest subclass
`ActiveDirectoryError`.  Error codes are the unsigned 32-bit HRESULTs the
wrapper obtains via `signed_to_unsigned`. -/

inductive ADException where
  | memberNotInGroupError
  | memberAlreadyInGroupError
  | badPathnameError
  | notImplementedError
  | attributeError
  | attributeNotFound
  | activeDirectoryError
deriving DecidableEq

def ERROR_DS_NO_SUCH_OBJECT : Nat := 0x80072030
def ERROR_OBJECT_ALREADY_EXISTS : Nat := 0x80071392
def ERROR_MEMBER_NOT_IN_ALIAS : Nat := 0x80070561
def ERROR_MEMBER_IN_ALIAS : Nat := 0x80070562
def E_ADS_BAD_PATHNAME : Nat := 0x80005000
def ERROR_NOT_IMPLEMENTED : Nat := 0x80004001
def E_ADS_PROPERTY_NOT_FOUND : Nat := 0x8000500D
def E_ADS_PROPERTY_NOT_SUPPORTED : Nat := 0x80005006
def E_ADS_PROPERTY_INVALID : Nat := 0x80005007

/-- `WINERROR_MAP` from `active_directory/exc.py`. -/
def WINERROR_MAP : List (Nat × ADException) :=
  [(ERROR_MEMBER_NOT_IN_ALIAS, .memberNotInGroupError),
   (ERROR_MEMBER_IN_ALIAS, .memberAlreadyInGroupError),
   (E_ADS_BAD_PATHNAME, .badPathnameError),
   (ERROR_NOT_IMPLEMENTED, .notImplementedError),
   (E_ADS_PROPERTY_NOT_FOUND, .attributeError),
   (E_ADS_PROPERTY_NOT_SUPPORTED, .attributeError),
   (E_ADS_PROPERTY_INVALID, .attributeError)]

/-- `WINERROR_MAP.get (code)`. -/
def winerrorGet (code : Nat) : Option ADException :=
  (WINERROR_MAP.find? (fun p => p.1 == code)).map Prod.snd

/-- The exception class picked by `wrapper`'s `com_error` branch:
`winerror_map.get (hresult_code, winerror_map.get (scode, default_exception))`
with `ActiveDirectoryError` as the module default. -/
def comErrorException (hresultCode : Nat) (scode : Option Nat) : ADException :=
  (winerrorGet hresultCode).getD ((scode.bind winerrorGet).getD .activeDirectoryError)

/-- `exc.wrapped (function, *args)`: call the function once; a normal
return passes through, a raised `com_error` (carrying its HRESULT and
optional secondary status code) is translated and re-raised at once. -/
def wrapped {α : Type} (outcome : Except (Nat × Option Nat) α) : Except ADException α :=
  match outcome with
  | .ok v => .ok v
  | .error (h, s) => .error (comErrorException h s)

/-! ## `active_directory2/credentials.py` — the per-server credentials cache

The cache's dict (server → list of credentials) is embedded as an
insertion-ordered association list. -/

structure Credentials where
  username : Option String
  password : Option String
  server : Option String
  ctype : Nat
deriving DecidableEq

/-- `Credentials.__init__` derives `authentication_type` from `type`
(`ANONYMOUS = 0` gives `NO_AUTHENTICATION = 0x10`, anything else
`SECURE_AUTHENTICATION = 0x01`). -/
def authenticationType (c : Credentials) : Nat :=
  if c.ctype = 0 then 0x10 else 0x01

abbrev CredCache := List (Option String × List Credentials)

/-- `_CredentialsCache.push`:
`self._cache.setdefault (cred.server, []).append (cred)`. -/
def cachePush (cred : Credentials) (cache : CredCache) : CredCache :=
  if cache.any (fun e => e.1 == cred.server) then
    cache.map (fun e => if e.1 == cred.server then (e.1, e.2 ++ [cred]) else e)
  else cache ++ [(cred.server, [cred])]

/-- `_CredentialsCache.pop`: `self._cache[server].pop ()`; a missing key
(`KeyError`) or an empty per-server list (`IndexError`) raises, modelled
as `none`. -/
def cachePop (server : Option String) (cache : CredCache) :
    Option (Credentials × CredCache) :=
  match cache.find? (fun e => e.1 == server) with
  | none => none
  | some e =>
    match e.2.getLast? with
    | none => none
    | some c =>
      some (c, cache.map (fun e2 => if e2.1 == server then (e2.1, e2.2.dropLast) else e2))

/-- `_CredentialsCache.get`: `creds = self._cache.setdefault (server, [])`
(which inserts an empty entry when the key is new), then the last pushed
credential if any, else the default.  Returns the result and the
possibly-extended cache. -/
def cacheGet (server : Option String) (default : Option Credentials)
    (cache : CredCache) : Option Credentials × CredCache :=
  match cache.find? (fun e => e.1 == server) with
  | some e =>
    (match e.2.getLast? with
     | some c => some c
     | none => default, cache)
  | none => (default, cache ++ [(server, [])])

/-- The not-yet-popped credentials the cache holds for `server`, oldest
first. -/
def stackOf (server : Option String) (cache : CredCache) : List Credentials :=
  ((cache.find? (fun e => e.1 == server)).map Prod.snd).getD []

/-- `Credentials.__enter__`: `cache ().push (self)`. -/
def credEnter (c : Credentials) (cache : CredCache) : CredCache :=
  cachePush c cache

/-- `Credentials.__exit__`: `cache ().pop (self.server)`. -/
def credExit (c : Credentials) (cache : CredCache) : Option CredCache :=
  (cachePop c.server cache).map Prod.snd

/-! ## Theorems -/

/-- Reassembling a normalised timedelta gives back the microsecond offset. -/
theorem delta_as_microseconds_datetimeSubBase (t : Nat) :
    delta_as_microseconds (datetimeSubBase t) = t := by
  simp only [delta_as_microseconds, datetimeSubBase]
  omega

/-- The two's-complement round trip through `struct`. -/
theorem signed_to_unsigned_unsigned_to_signed {u : Nat} (h : u < 2 ^ 32) :
    signed_to_unsigned (unsigned_to_signed u) = some u := by
  simp only [signed_to_unsigned, unsigned_to_signed]
  split <;> rename_i hu
  · rw [if_pos (by constructor <;> omega)]
    simp only [Option.some.injEq]
    omega
  · rw [if_pos (by constructor <;> omega)]
    simp only [Option.some.injEq]
    omega

/-- Masking with `0xffffffff` is reduction mod `2^32`. -/
theorem land_ffffffff (x : Nat) : x &&& 0xffffffff = x % 2 ^ 32 := by
  have := Nat.and_pow_two_sub_one_eq_mod x 32
  norm_num at this ⊢
  exact this

/-- Masking with `0xffffffff00000000` then shifting extracts bits 32–63. -/
theorem land_high_shift (x : Nat) :
    (x &&& 0xffffffff00000000) >>> 32 = (x >>> 32) % 2 ^ 32 := by
  have hM : (0xffffffff00000000 : Nat) = (2 ^ 32 - 1) <<< 32 := by
    rw [Nat.shiftLeft_eq]; norm_num
  apply Nat.eq_of_testBit_eq
  intro i
  rw [hM]
  simp only [Nat.testBit_shiftRight, Nat.testBit_and, Nat.testBit_shiftLeft,
    Nat.testBit_mod_two_pow, Nat.testBit_two_pow_sub_one]
  have h32 : 32 ≤ 32 + i := Nat.le_add_right _ _
  simp [h32, Nat.add_sub_cancel_left, Bool.and_comm]


/-- The struct round trip leaves the unsigned 32-bit value readable back. -/
theorem u2s_emod {u : Nat} (h : u < 2 ^ 32) :
    ((unsigned_to_signed u) % (2 ^ 32 : Int)).toNat = u := by
  unfold unsigned_to_signed; split <;> omega

/-- The signed reading of a 32-bit pattern is zero exactly when the
pattern is. -/
theorem u2s_eq_zero_iff {x : Nat} (h : x < 2 ^ 32) :
    unsigned_to_signed x = 0 ↔ x = 0 := by
  unfold unsigned_to_signed; split <;> omega

/-- The signed `&` test of `convert_to_flags` agrees with the unsigned
bitwise AND. -/
theorem pyAnd32_spec {m n : Nat} (hm : m < 2 ^ 32) (hn : n < 2 ^ 32) :
    pyAnd32 (unsigned_to_signed n) (unsigned_to_signed m) = 0 ↔ m &&& n = 0 := by
  unfold pyAnd32
  rw [u2s_emod hn, u2s_emod hm, u2s_eq_zero_iff (Nat.and_lt_two_pow n hm), Nat.land_comm]

/-- C5: for every 32-bit input `n` and every flag table with 32-bit
bitmasks, `convert_to_flags` returns exactly the set of names whose
bitmask has a nonzero bitwise AND with `n` — a characterisation
independent of the order the bits are tested — and on input `0x80000002`
the `USER_ACCOUNT_CONTROL` enumeration yields exactly the names
registered for the bits `0x00000002` and `0x80000000` (no name is
registered for the latter). -/
theorem convert_to_flags_exact :
    (∀ (table : List (Nat × String)) (n : Nat), n < 2 ^ 32 →
      (∀ p ∈ table, p.1 < 2 ^ 32) →
      ∀ name, name ∈ convert_to_flags table n ↔ ∃ m, (m, name) ∈ table ∧ m &&& n ≠ 0) ∧
    convert_to_flags USER_ACCOUNT_CONTROL 0x80000002 =
      namesForBit USER_ACCOUNT_CONTROL 0x00000002 ∪
        namesForBit USER_ACCOUNT_CONTROL 0x80000000 := by
  constructor
  · intro table n hn hmask name
    unfold convert_to_flags enum_item_numbers
    simp only [List.filter_map, List.map_map, List.mem_toFinset, List.mem_map,
      List.mem_filter, Function.comp_apply, bne_iff_ne, ne_eq, decide_not,
      Bool.not_eq_eq_eq_not, Bool.not_true, decide_eq_false_iff_not]
    constructor
    · rintro ⟨⟨m, nm⟩, ⟨hmem, hand⟩, rfl⟩
      exact ⟨m, hmem, fun h0 => hand ((pyAnd32_spec (hmask _ hmem) hn).mpr h0)⟩
    · rintro ⟨m, hmem, hand⟩
      exact ⟨(m, name), ⟨hmem, fun h0 => hand ((pyAnd32_spec (hmask _ hmem) hn).mp h0)⟩, rfl⟩
  · decide

/-- Witness for `convert_to_flags_exact`: the account-disable name is in
the decoded set for `0x80000002` and the reserved high bit contributes
nothing. -/
theorem convert_to_flags_exact_witness :
    ("ADS_UF_ACCOUNTDISABLE" ∈ convert_to_flags USER_ACCOUNT_CONTROL 0x80000002) ∧
    0x80000002 < 2 ^ 32 :=
  ⟨((convert_to_flags_exact.1 USER_ACCOUNT_CONTROL 0x80000002 (by norm_num)
      (by decide) "ADS_UF_ACCOUNTDISABLE").mpr
    ⟨0x00000002, by decide, by decide⟩),
   by norm_num⟩

/-- C4 (amended): decoding the interval pair whose unsigned parts are
`hu`/`lu` yields 1601-01-01 plus `(hu << 32) + lu` ticks of 100ns
truncated to the whole-microsecond resolution of a Python `datetime` —
provided that instant is representable, i.e. at most `datetime.max`
(year 9999); beyond it the source raises an uncaught `OverflowError`.
For representable pairs the decoded offset is `ticks / 10` microseconds,
within one microsecond below the claimed instant, and equals it exactly
whenever the tick count is a multiple of 10. -/
theorem ad_time_decode_epoch_and_ticks (hu lu : Nat) (hh : hu < 2 ^ 32) (hl : lu < 2 ^ 32) :
    (spec_decoded_ticks hu lu / 10 ≤ MAX_DATETIME_MICROSECONDS →
      ad_time_to_datetime (unsigned_to_signed hu) (unsigned_to_signed lu) =
        .ok (some (spec_decoded_ticks hu lu / 10))) ∧
    (∀ us, ad_time_to_datetime (unsigned_to_signed hu) (unsigned_to_signed lu) =
        .ok (some us) →
      10 * us ≤ spec_decoded_ticks hu lu ∧ spec_decoded_ticks hu lu < 10 * us + 10) ∧
    (10 ∣ spec_decoded_ticks hu lu →
      spec_decoded_ticks hu lu / 10 ≤ MAX_DATETIME_MICROSECONDS →
      (ad_time_to_datetime (unsigned_to_signed hu) (unsigned_to_signed lu)).map
          (Option.map (fun us => 10 * us)) =
        .ok (some (spec_decoded_ticks hu lu))) ∧
    (MAX_DATETIME_MICROSECONDS < spec_decoded_ticks hu lu / 10 →
      ad_time_to_datetime (unsigned_to_signed hu) (unsigned_to_signed lu) =
        .error "OverflowError") := by
  have h1 := signed_to_unsigned_unsigned_to_signed hh
  have h2 := signed_to_unsigned_unsigned_to_signed hl
  have hd : ad_time_to_datetime (unsigned_to_signed hu) (unsigned_to_signed lu)
      = if spec_decoded_ticks hu lu / 10 ≤ MAX_DATETIME_MICROSECONDS then
          .ok (some (spec_decoded_ticks hu lu / 10))
        else .error "OverflowError" := by
    unfold ad_time_to_datetime spec_decoded_ticks
    rw [h1, h2]
  refine ⟨?_, ?_, ?_, ?_⟩
  · intro hle
    rw [hd, if_pos hle]
  · intro us hus
    rw [hd] at hus
    by_cases hle : spec_decoded_ticks hu lu / 10 ≤ MAX_DATETIME_MICROSECONDS
    · rw [if_pos hle] at hus
      injection hus with hus
      injection hus with hus
      subst hus
      unfold spec_decoded_ticks
      omega
    · rw [if_neg hle] at hus
      cases hus
  · intro hdvd hle
    rw [hd, if_pos hle]
    show Except.ok (some (10 * (spec_decoded_ticks hu lu / 10))) =
      Except.ok (some (spec_decoded_ticks hu lu))
    have hmul : 10 * (spec_decoded_ticks hu lu / 10) = spec_decoded_ticks hu lu :=
      Nat.mul_div_cancel' hdvd
    rw [hmul]
  · intro hgt
    rw [hd, if_neg (by omega)]

/-- Witness for `ad_time_decode_epoch_and_ticks` at the pair (0, 100). -/
theorem ad_time_decode_epoch_and_ticks_witness :
    ad_time_to_datetime (unsigned_to_signed 0) (unsigned_to_signed 100) =
      .ok (some (spec_decoded_ticks 0 100 / 10)) :=
  (ad_time_decode_epoch_and_ticks 0 100 (by norm_num) (by norm_num)).1 (by decide)

/-- C4 counterexample: with parts (0, 5) the code decodes to 1601-01-01
exactly (0 microseconds), not to 1601-01-01 plus 5 ticks of 100ns. -/
theorem ad_time_decode_drops_subtick :
    ¬ ((ad_time_to_datetime (unsigned_to_signed 0) (unsigned_to_signed 5)).map
          (Option.map (fun us => 10 * us)) =
        .ok (some (spec_decoded_ticks 0 5))) := by
  intro h
  have h2 : (Except.ok (some (0 : Nat)) : Except String (Option Nat)) =
      .ok (some (spec_decoded_ticks 0 5)) := h
  injection h2 with h2
  injection h2 with h2
  exact absurd h2 (by decide)

/-- C2 (amended): for the interval-timestamp codec pair, a raw pair whose
unsigned parts make a tick count that is a whole number of microseconds
(a multiple of 10) and whose decoded instant does not pass `datetime.max`
round-trips: `encode (decode raw) = raw`. -/
theorem ad_time_round_trip (hu lu : Nat) (hh : hu < 2 ^ 32) (hl : lu < 2 ^ 32)
    (hdvd : 10 ∣ (hu <<< 32) + lu)
    (hmax : ((hu <<< 32) + lu) / 10 ≤ MAX_DATETIME_MICROSECONDS) :
    (ad_time_to_datetime (unsigned_to_signed hu) (unsigned_to_signed lu)).map
        (Option.map ad_time_from_datetime) =
      .ok (some (hu, lu)) := by
  have h1 := signed_to_unsigned_unsigned_to_signed hh
  have h2 := signed_to_unsigned_unsigned_to_signed hl
  unfold ad_time_to_datetime
  rw [h1, h2]
  show Except.map (Option.map ad_time_from_datetime)
      (if ((hu <<< 32) + lu) / 10 ≤ MAX_DATETIME_MICROSECONDS then
        Except.ok (some (((hu <<< 32) + lu) / 10))
      else Except.error "OverflowError") = .ok (some (hu, lu))
  rw [if_pos hmax]
  show Except.ok (some (ad_time_from_datetime (((hu <<< 32) + lu) / 10))) =
    .ok (some (hu, lu))
  congr 2
  unfold ad_time_from_datetime
  rw [delta_as_microseconds_datetimeSubBase]
  have hns : 10 * (((hu <<< 32) + lu) / 10) = (hu <<< 32) + lu := Nat.mul_div_cancel' hdvd
  rw [hns]
  show ((((hu <<< 32) + lu) &&& 0xffffffff00000000) >>> 32,
      ((hu <<< 32) + lu) &&& 0xffffffff) = (hu, lu)
  rw [land_ffffffff, land_high_shift, Nat.shiftRight_eq_div_pow]
  have hshift : hu <<< 32 = hu * 2 ^ 32 := Nat.shiftLeft_eq hu 32
  rw [hshift]
  clear hdvd hns h1 h2 hmax
  simp only [Prod.mk.injEq]
  constructor <;> omega

/-- Witness for `ad_time_round_trip` at the pair (0, 10). -/
theorem ad_time_round_trip_witness :
    (ad_time_to_datetime (unsigned_to_signed 0) (unsigned_to_signed 10)).map
        (Option.map ad_time_from_datetime) =
      .ok (some (0, 10)) :=
  ad_time_round_trip 0 10 (by norm_num) (by norm_num) (by decide) (by decide)

/-- C2 counterexample: the raw pair (0, 1) — one 100ns tick — decodes to
1601-01-01 and re-encodes to (0, 0), so `encode (decode raw) ≠ raw`. -/
theorem ad_time_round_trip_fails_on_subtick :
    ¬ ((ad_time_to_datetime (unsigned_to_signed 0) (unsigned_to_signed 1)).map
          (Option.map ad_time_from_datetime) =
        .ok (some (0, 1))) := by
  intro h
  have h2 : (Except.ok (some ((0, 0) : Nat × Nat)) : Except String (Option (Nat × Nat))) =
      .ok (some (0, 1)) := h
  injection h2 with h2
  injection h2 with h2
  injection h2 with h3 h4
  exact absurd h4 (by decide)

/-- Reading one server's stack steps through the association list. -/
theorem stackOf_cons (s : Option String) (e : Option String × List Credentials)
    (rest : CredCache) :
    stackOf s (e :: rest) = if (e.1 == s) = true then e.2 else stackOf s rest := by
  unfold stackOf
  by_cases h : (e.1 == s) = true
  · rw [List.find?_cons_of_pos (p := fun e2 : Option String × List Credentials => e2.1 == s) _ h,
      if_pos h]
    rfl
  · rw [List.find?_cons_of_neg (p := fun e2 : Option String × List Credentials => e2.1 == s) _ h,
      if_neg h]

/-- Rewriting the values stored under one key leaves every other server's
stack unchanged. -/
theorem stackOf_map_keyed_ne (g : List Credentials → List Credentials)
    (server s : Option String) (l : CredCache) (h : s ≠ server) :
    stackOf s (l.map (fun e2 => if e2.1 == server then (e2.1, g e2.2) else e2)) =
      stackOf s l := by
  induction l with
  | nil => rfl
  | cons e rest ih =>
    simp only [List.map_cons]
    by_cases hk : (e.1 == server) = true
    · have hk2 : e.1 = server := by simpa using hk
      have hs : (e.1 == s) = false := beq_eq_false_iff_ne.mpr (by rw [hk2]; exact Ne.symm h)
      rw [if_pos hk, stackOf_cons, stackOf_cons]
      simp only [hs, Bool.false_eq_true, if_false]
      exact ih
    · rw [if_neg hk, stackOf_cons, stackOf_cons]
      by_cases hs : (e.1 == s) = true
      · simp [hs]
      · have hs2 : (e.1 == s) = false := by simpa using hs
        simp only [hs2, Bool.false_eq_true, if_false]
        exact ih

/-- Rewriting the values stored under one key acts on that server's stack
(when the key is present). -/
theorem stackOf_map_keyed_self (g : List Credentials → List Credentials)
    (server : Option String) (l : CredCache) :
    stackOf server (l.map (fun e2 => if e2.1 == server then (e2.1, g e2.2) else e2)) =
      if l.any (fun e2 => e2.1 == server) then g (stackOf server l) else [] := by
  induction l with
  | nil => simp [stackOf]
  | cons e rest ih =>
    simp only [List.map_cons, List.any_cons]
    by_cases hk : (e.1 == server) = true
    · rw [if_pos hk, stackOf_cons, stackOf_cons]
      simp [hk]
    · have hk2 : (e.1 == server) = false := by simpa using hk
      rw [if_neg hk, stackOf_cons, stackOf_cons]
      simp only [hk2, Bool.false_eq_true, if_false, Bool.false_or]
      exact ih

/-- Appending a credential to the entries keyed by its server, as `push`
does on a cache already holding the key, leaves the entry `find?` sees. -/
theorem find?_map_push (c : Credentials) (l : CredCache)
    (hany : l.any (fun e => e.1 == c.server) = true) :
    (l.map (fun e => if e.1 == c.server then (e.1, e.2 ++ [c]) else e)).find?
        (fun e => e.1 == c.server) =
      some (c.server, stackOf c.server l ++ [c]) := by
  induction l with
  | nil => cases hany
  | cons e0 rest ih =>
    by_cases h0 : (e0.1 == c.server) = true
    · have h02 : e0.1 = c.server := by simpa using h0
      simp only [List.map_cons, if_pos h0]
      rw [List.find?_cons_of_pos (p := fun e : Option String × List Credentials => e.1 == c.server)
        _ (by simpa using h0)]
      rw [stackOf_cons, if_pos h0, h02]
    · have h02 : (e0.1 == c.server) = false := by simpa using h0
      have hany2 : rest.any (fun e => e.1 == c.server) = true := by
        simpa [h02] using hany
      simp only [List.map_cons, if_neg h0]
      rw [List.find?_cons_of_neg (p := fun e : Option String × List Credentials => e.1 == c.server)
        _ (by simp [h02])]
      rw [ih hany2, stackOf_cons]
      simp [h02]

/-- After a push, the pushed server's entry holds the old stack with the
new credential appended. -/
theorem find?_cachePush_self (c : Credentials) (cache : CredCache) :
    (cachePush c cache).find? (fun e => e.1 == c.server) =
      some (c.server, stackOf c.server cache ++ [c]) := by
  unfold cachePush
  by_cases hany : cache.any (fun e => e.1 == c.server) = true
  · rw [if_pos hany]
    exact find?_map_push c cache hany
  · rw [if_neg hany]
    have hnone : cache.find? (fun e => e.1 == c.server) = none := by
      rw [List.find?_eq_none]
      intro a ha hpa
      exact absurd (List.any_eq_true.mpr ⟨a, ha, hpa⟩) hany
    have hstack : stackOf c.server cache = [] := by
      simp [stackOf, hnone]
    rw [List.find?_append, hnone, hstack]
    simp

/-- A push leaves every other server's stack unchanged. -/
theorem stackOf_cachePush_ne (c : Credentials) (cache : CredCache)
    (s : Option String) (h : s ≠ c.server) :
    stackOf s (cachePush c cache) = stackOf s cache := by
  unfold cachePush
  by_cases hany : cache.any (fun e => e.1 == c.server) = true
  · rw [if_pos hany]
    exact stackOf_map_keyed_ne (fun l2 => l2 ++ [c]) c.server s cache h
  · rw [if_neg hany]
    unfold stackOf
    rw [List.find?_append]
    have hnew : ([(c.server, [c])] : CredCache).find? (fun e => e.1 == s) = none := by
      rw [List.find?_eq_none]
      intro a ha hpa
      simp only [List.mem_singleton] at ha
      subst ha
      simp only [beq_iff_eq] at hpa
      exact h hpa.symm
    rw [hnew]
    simp

/-- The push is visible on the pushed server's stack. -/
theorem stackOf_cachePush_self (c : Credentials) (cache : CredCache) :
    stackOf c.server (cachePush c cache) = stackOf c.server cache ++ [c] := by
  simp [stackOf, find?_cachePush_self c cache]

/-- C9: the credentials cache is a per-server stack: after `push c`,
`get c.server` returns `c`; `pop c.server` returns the most recently
pushed not-yet-popped credential for that server — here the just-pushed
`c` — and restores every server's stack to its state before the push; and
entering then exiting a `Credentials` context leaves every server's stack
unchanged. -/
theorem credentials_cache_stack (cache : CredCache) (c : Credentials) :
    (cacheGet c.server none (cachePush c cache)).1 = some c ∧
    (∃ cache2, cachePop c.server (cachePush c cache) = some (c, cache2) ∧
      ∀ s, stackOf s cache2 = stackOf s cache) ∧
    (∃ cache2, credExit c (credEnter c cache) = some cache2 ∧
      ∀ s, stackOf s cache2 = stackOf s cache) := by
  have hfind := find?_cachePush_self c cache
  have hget : (cacheGet c.server none (cachePush c cache)).1 = some c := by
    unfold cacheGet
    rw [hfind]
    simp
  have hstacks : ∀ s, stackOf s
      ((cachePush c cache).map
        (fun e2 => if e2.1 == c.server then (e2.1, e2.2.dropLast) else e2)) =
      stackOf s cache := by
    intro s
    by_cases hsrv : s = c.server
    · subst hsrv
      rw [stackOf_map_keyed_self List.dropLast c.server (cachePush c cache)]
      have hany : (cachePush c cache).any (fun e2 => e2.1 == c.server) = true :=
        List.any_eq_true.mpr
          ⟨_, List.mem_of_find?_eq_some hfind,
            List.find?_some (p := fun e2 : Option String × List Credentials => e2.1 == c.server)
              hfind⟩
      rw [if_pos hany, stackOf_cachePush_self]
      simp
    · rw [stackOf_map_keyed_ne List.dropLast c.server s (cachePush c cache) hsrv]
      exact stackOf_cachePush_ne c cache s hsrv
  have hpop : cachePop c.server (cachePush c cache) =
      some (c, (cachePush c cache).map
        (fun e2 => if e2.1 == c.server then (e2.1, e2.2.dropLast) else e2)) := by
    unfold cachePop
    rw [hfind]
    simp
  refine ⟨hget, ⟨_, hpop, hstacks⟩, ⟨_, ?_, hstacks⟩⟩
  unfold credExit credEnter
  rw [hpop]
  rfl

/-- C1 (amended): the decode lookup of `ADObject.__getattr__` tries the
name-registered converter, then the attribute type's converter, then
returns the raw value unchanged — but the type table holds five entries,
not four: `adobject.py` registers a DN converter under `"2.5.5.1"` next
to the four OIDs the claim lists. -/
theorem codec_lookup_fallback :
    (∀ name synId v f, (get_converters name).1 = some f →
      adobject_decode name synId v = applyConverter f v) ∧
    (∀ name synId v f, (get_converters name).1 = Option.none →
      (get_type_converters synId).1 = some f →
      adobject_decode name synId v = applyConverter f v) ∧
    (∀ name synId v, (get_converters name).1 = Option.none →
      (get_type_converters synId).1 = Option.none →
      adobject_decode name synId v = .ok v) ∧
    type_converters.map Prod.fst =
      ["2.5.5.11", "2.5.5.16", "2.5.5.17", "2.5.5.10", "2.5.5.1"] := by
  refine ⟨?_, ?_, ?_, rfl⟩
  · intro name synId v f h
    simp [adobject_decode, h]
  · intro name synId v f h1 h2
    simp [adobject_decode, h1, h2]
  · intro name synId v h1 h2
    simp [adobject_decode, h1, h2]

/-- Witness for `codec_lookup_fallback`: an unregistered name with the DN
attribute type decodes through the type table. -/
theorem codec_lookup_fallback_witness :
    adobject_decode "member" "2.5.5.1" (PyVal.str "cn=tim") =
      applyConverter Converter.dnToObject (PyVal.str "cn=tim") :=
  codec_lookup_fallback.2.1 "member" "2.5.5.1" (PyVal.str "cn=tim")
    Converter.dnToObject rfl rfl

/-- C1 counterexample: `member` has no name-registered converter and its
attribute type `2.5.5.1` is outside the claim's fixed four-OID set, yet
the decoded value is a wrapped object, not the raw value. -/
theorem codec_lookup_dn_overrides_identity :
    (get_converters "member").1 = Option.none ∧
    adobject_decode "member" "2.5.5.1" (PyVal.str "cn=tim") =
      .ok (PyVal.adObject "cn=tim") ∧
    (Except.ok (PyVal.adObject "cn=tim") : Except String PyVal) ≠
      .ok (PyVal.str "cn=tim") := by
  refine ⟨rfl, rfl, fun h => ?_⟩
  injection h with h
  exact PyVal.noConfusion h

/-- C3 (amended): every converter registered by name decodes an absent
(`None`) raw value to the empty sentinel `None` without an error, with
the single exception of `objectClass`'s `convert_to_breadcrumbs`, which
lacks the `None` guard and raises a `TypeError`. -/
theorem registered_decode_none_empty (name : String) (f : Converter)
    (h : (get_converters name).1 = some f)
    (hb : f ≠ Converter.convertToBreadcrumbs) :
    applyConverter f PyVal.none = .ok PyVal.none := by
  unfold get_converters at h
  cases hfind : name_converters.find? (fun p => p.1 == name) with
  | none => rw [hfind] at h; simp at h
  | some e =>
    rw [hfind] at h
    simp only [Option.map_some', Option.getD_some] at h
    have hmem := List.mem_of_find?_eq_some hfind
    fin_cases hmem <;>
      · simp only [Option.some.injEq] at h
        subst h
        first
        | rfl
        | exact absurd rfl hb

/-- Witness for `registered_decode_none_empty`: the `lastLogon` timestamp
decoder maps `None` to `None`. -/
theorem registered_decode_none_empty_witness :
    applyConverter Converter.convertToDatetime PyVal.none = .ok PyVal.none :=
  registered_decode_none_empty "lastLogon" Converter.convertToDatetime rfl (by decide)

/-- C3 counterexample: the registered decoder of `objectClass`
(`convert_to_breadcrumbs`) raises a `TypeError` on an absent value
(`u" > ".join (None)`). -/
theorem objectClass_decode_none_raises :
    (get_converters "objectClass").1 = some Converter.convertToBreadcrumbs ∧
    applyConverter Converter.convertToBreadcrumbs PyVal.none = .error "TypeError" :=
  ⟨rfl, rfl⟩

/-- Concatenated two-digit hex renderings have twice the bytes' length. -/
theorem hexcat_length (bs : List Nat) : ((bs.map hex2).flatten).length = 2 * bs.length := by
  induction bs with
  | nil => rfl
  | cons b rest ih =>
    simp only [List.map_cons, List.flatten_cons, List.length_append, ih, hex2,
      List.length_cons, List.length_nil, List.length_singleton]
    omega

/-- Hex digits in range render to hex characters. -/
theorem hexDigitChar_isHex (n : Nat) (h : n < 16) : isHexChar (hexDigitChar n) = true := by
  have hall : ∀ m, m < 16 → isHexChar (hexDigitChar m) = true := by decide
  exact hall n h

/-- Every character of the hex rendering of a byte string is a hex digit. -/
theorem hexcat_all_hex (bs : List Nat) (h : ∀ b ∈ bs, b < 256) :
    ∀ c ∈ (bs.map hex2).flatten, isHexChar c = true := by
  induction bs with
  | nil => simp
  | cons b rest ih =>
    intro c hc
    simp only [List.map_cons, List.flatten_cons, List.mem_append] at hc
    rcases hc with hc | hc
    · have hb : b < 256 := h b (by simp)
      simp only [hex2, List.mem_cons, List.not_mem_nil, or_false] at hc
      rcases hc with rfl | rfl
      · exact hexDigitChar_isHex _ (by omega)
      · exact hexDigitChar_isHex _ (by omega)
    · exact ih (fun x hx => h x (by simp [hx])) c hc

/-- C6 (amended): in the shipped module, decoding a 16-byte GUID octet
string yields the canonical braced, hyphen-separated form with hex groups
of 8, 4, 4, 4 and 12 digits.  (The `active_directory` package revision
deviates: see `pkg_convert_to_guid_not_canonical`.) -/
theorem convert_to_guid_canonical (bs : List Nat) (hlen : bs.length = 16)
    (hbytes : ∀ b ∈ bs, b < 256) :
    ∃ g1 g2 g3 g4 g5 : List Char,
      g1.length = 8 ∧ g2.length = 4 ∧ g3.length = 4 ∧ g4.length = 4 ∧ g5.length = 12 ∧
      (∀ c ∈ g1 ++ g2 ++ g3 ++ g4 ++ g5, isHexChar c = true) ∧
      convert_to_guid (some bs) = some (canonicalGuid g1 g2 g3 g4 g5) := by
  have hglen : ((bs.map hex2).flatten).length = 32 := by rw [hexcat_length, hlen]
  have hghex := hexcat_all_hex bs hbytes
  refine ⟨((bs.map hex2).flatten).take 8, (((bs.map hex2).flatten).drop 8).take 4,
    (((bs.map hex2).flatten).drop 12).take 4, (((bs.map hex2).flatten).drop 16).take 4,
    ((bs.map hex2).flatten).drop 20, ?_, ?_, ?_, ?_, ?_, ?_, rfl⟩
  · simp [List.length_take, hglen]
  · simp [List.length_take, List.length_drop, hglen]
  · simp [List.length_take, List.length_drop, hglen]
  · simp [List.length_take, List.length_drop, hglen]
  · simp [List.length_drop, hglen]
  · intro c hc
    simp only [List.mem_append] at hc
    rcases hc with (((hc | hc) | hc) | hc) | hc
    · exact hghex c (List.take_subset _ _ hc)
    · exact hghex c (List.drop_subset _ _ (List.take_subset _ _ hc))
    · exact hghex c (List.drop_subset _ _ (List.take_subset _ _ hc))
    · exact hghex c (List.drop_subset _ _ (List.take_subset _ _ hc))
    · exact hghex c (List.drop_subset _ _ hc)

/-- Witness for `convert_to_guid_canonical` at the all-zero 16-byte GUID. -/
theorem convert_to_guid_canonical_witness :
    ∃ g1 g2 g3 g4 g5 : List Char,
      g1.length = 8 ∧ g2.length = 4 ∧ g3.length = 4 ∧ g4.length = 4 ∧ g5.length = 12 ∧
      (∀ c ∈ g1 ++ g2 ++ g3 ++ g4 ++ g5, isHexChar c = true) ∧
      convert_to_guid (some (List.replicate 16 0)) =
        some (canonicalGuid g1 g2 g3 g4 g5) :=
  convert_to_guid_canonical (List.replicate 16 0) (by simp)
    (by intro b hb; rw [List.eq_of_mem_replicate hb]; omega)

/-- C6 counterexample: the `active_directory` package revision wraps the
hex digits in angle brackets before slicing, so its decode of a 16-byte
GUID is a 40-character string that admits no canonical 8-4-4-4-12
decomposition. -/
theorem pkg_convert_to_guid_not_canonical :
    ¬ ∃ g1 g2 g3 g4 g5 : List Char,
      g1.length = 8 ∧ g2.length = 4 ∧ g3.length = 4 ∧ g4.length = 4 ∧ g5.length = 12 ∧
      (∀ c ∈ g1 ++ g2 ++ g3 ++ g4 ++ g5, isHexChar c = true) ∧
      pkg_convert_to_guid (some (List.replicate 16 0)) =
        some (canonicalGuid g1 g2 g3 g4 g5) := by
  rintro ⟨g1, g2, g3, g4, g5, h1, h2, h3, h4, h5, hhex, heq⟩
  have hlen38 : (canonicalGuid g1 g2 g3 g4 g5).length = 38 := by
    simp [canonicalGuid, h1, h2, h3, h4, h5]
  have h40 : ((pkg_convert_to_guid (some (List.replicate 16 0))).map
      List.length).getD 0 = 40 := by rfl
  rw [heq] at h40
  simp only [Option.map_some', Option.getD_some] at h40
  rw [hlen38] at h40
  exact absurd h40 (by decide)

/-- C7 counterexample: the directory's object-not-found (`0x80072030`) and
already-exists (`0x80071392`) codes — defined as constants in `exc.py` —
have no entry in `WINERROR_MAP`, so both raise the default
`ActiveDirectoryError`, not a kind of their own. -/
theorem winerror_map_lacks_not_found_and_exists :
    winerrorGet ERROR_DS_NO_SUCH_OBJECT = none ∧
    winerrorGet ERROR_OBJECT_ALREADY_EXISTS = none ∧
    comErrorException ERROR_DS_NO_SUCH_OBJECT none = .activeDirectoryError ∧
    comErrorException ERROR_OBJECT_ALREADY_EXISTS none = .activeDirectoryError := by
  decide

/-- C7 (amended): the fixed table translates member-not-in-group
(`0x80070561`), member-already-in-group (`0x80070562`), bad-path
(`0x80005000`), not-implemented (`0x80004001`) and property-not-found
(`0x8000500D`, together with property-not-supported `0x80005006` and
property-invalid `0x80005007`, all three to the attribute-error kind);
any other primary code falls back to the secondary status code and then
to the default `ActiveDirectoryError` — in particular the object-not-found
and already-exists codes are not in the table.  A successful call passes
through and a raised error is translated and propagated at once, with no
retry. -/
theorem winerror_translation :
    comErrorException ERROR_MEMBER_NOT_IN_ALIAS none = .memberNotInGroupError ∧
    comErrorException ERROR_MEMBER_IN_ALIAS none = .memberAlreadyInGroupError ∧
    comErrorException E_ADS_BAD_PATHNAME none = .badPathnameError ∧
    comErrorException ERROR_NOT_IMPLEMENTED none = .notImplementedError ∧
    comErrorException E_ADS_PROPERTY_NOT_FOUND none = .attributeError ∧
    comErrorException E_ADS_PROPERTY_NOT_SUPPORTED none = .attributeError ∧
    comErrorException E_ADS_PROPERTY_INVALID none = .attributeError ∧
    (∀ code, winerrorGet code = none → comErrorException code none = .activeDirectoryError) ∧
    (∀ (v : Nat), wrapped (Except.ok v : Except (Nat × Option Nat) Nat) = .ok v) ∧
    (∀ h s, (wrapped (Except.error (h, s) : Except (Nat × Option Nat) Nat)) =
      .error (comErrorException h s)) := by
  refine ⟨by decide, by decide, by decide, by decide, by decide, by decide, by decide,
    ?_, fun _ => rfl, fun _ _ => rfl⟩
  intro code hnone
  simp [comErrorException, hnone]

/-- Witness for `winerror_translation`: an unmapped code falls back to the
default exception. -/
theorem winerror_translation_witness :
    comErrorException 0x80072030 none = .activeDirectoryError :=
  winerror_translation.2.2.2.2.2.2.2.1 0x80072030 (by decide)

/-- C8: the filter helpers build LDAP filter text by pure string
concatenation: `and_` (resp. `or_`) on two or more clause strings returns
`&` (resp. `|`) followed by each clause wrapped in parentheses in order;
on exactly one clause they return just that clause in parentheses;
`band name value` is `name ++ ":1.2.840.113556.1.4.803:=" ++ value`;
`within name dn` is `name ++ ":1.2.840.113556.1.4.1941:=" ++ dn`. -/
theorem filter_helpers_concatenate :
    (∀ c : String, and_ [c] = "(" ++ c ++ ")" ∧ or_ [c] = "(" ++ c ++ ")") ∧
    (∀ cs : List String, 2 ≤ cs.length →
      and_ cs = "&" ++ String.join (cs.map (fun s => "(" ++ s ++ ")")) ∧
      or_ cs = "|" ++ String.join (cs.map (fun s => "(" ++ s ++ ")"))) ∧
    (∀ name value : String, band name value = name ++ ":1.2.840.113556.1.4.803:=" ++ value) ∧
    (∀ name dn : String, within name dn = name ++ ":1.2.840.113556.1.4.1941:=" ++ dn) := by
  refine ⟨fun c => ⟨?_, ?_⟩, fun cs h => ⟨?_, ?_⟩, fun _ _ => rfl, fun _ _ => rfl⟩ <;>
    simp [and_, or_, String.join] <;> omega

/-- Witness for `filter_helpers_concatenate` at concrete clause lists. -/
theorem filter_helpers_concatenate_witness :
    and_ ["objectClass=user", "cn=tim"] =
      "&" ++ String.join (["objectClass=user", "cn=tim"].map (fun s => "(" ++ s ++ ")")) ∧
    and_ ["cn=tim"] = "(" ++ "cn=tim" ++ ")" :=
  ⟨(filter_helpers_concatenate.2.1 ["objectClass=user", "cn=tim"] (by decide)).1,
   (filter_helpers_concatenate.1 "cn=tim").1⟩

/-- C10: for a nonempty filter, the string handed to the directory search
begins with `(`; a filter whose start matches the bracketed-term pattern
`\([^)]+\)` passes through unchanged, any other filter is wrapped in
exactly one pair of parentheses. -/
theorem query_filter_bracketed (f : String) (h : f ≠ "") :
    (queryFilter f).data.head? = some '(' ∧
    (matchesBracketedTerm f = true → queryFilter f = f) ∧
    (matchesBracketedTerm f = false → queryFilter f = "(" ++ f ++ ")") := by
  by_cases hm : matchesBracketedTerm f
  · have hhead : f.data.head? = some '(' := by
      unfold matchesBracketedTerm at hm
      match hd : f.data with
      | [] => rw [hd] at hm; simp at hm
      | c :: rest =>
        rw [hd] at hm
        simp only [Bool.and_eq_true, beq_iff_eq] at hm
        simp [hm.1]
    refine ⟨?_, ?_, ?_⟩
    · simp [queryFilter, hm, hhead]
    · intro _; simp [queryFilter, hm]
    · intro hc; rw [hm] at hc; cases hc
  · simp only [Bool.not_eq_true] at hm
    refine ⟨?_, ?_, ?_⟩
    · simp [queryFilter, hm, h]
    · intro hc; rw [hm] at hc; cases hc
    · intro _; simp [queryFilter, hm, h]

/-- Witness for `query_filter_bracketed`: an unbracketed and a bracketed
concrete filter. -/
theorem query_filter_bracketed_witness :
    queryFilter "cn=tim" = "(" ++ "cn=tim" ++ ")" ∧
    queryFilter "(cn=tim)(sn=golden)" = "(cn=tim)(sn=golden)" :=
  ⟨(query_filter_bracketed "cn=tim" (by decide)).2.2 (by decide),
   (query_filter_bracketed "(cn=tim)(sn=golden)" (by decide)).2.1 (by decide)⟩

end ADSpec
